import Mathlib

/-!
# Led_Class/main.cpp: the switch-to-LED polling loop

A shallow embedding of `main` of `src/Led_Class/main.cpp`.  The program prints a
three-part banner and then loops forever: it samples the switch through
`task.get_switch_value()`, drives the LED through `task.set_gpio_high()` or
`task.set_gpio_low()`, prints one status line and sleeps 500 ms.

The program state is passed explicitly.  Every externally visible action of
`main` (a call on `task`, a write to `std::cout`, a sleep request) is recorded,
in program order, in the list `State.effects`.  The value returned by
`task.get_switch_value()` is an input of the model: one boolean per poll.
-/

namespace LedClass

/-! ## The `Task` helper (declared in `led.h`) -/

/-- Modelled from the spec: class `Task` is declared in `led.h`, which is not among
the sources.  The spec describes it as a thin helper wrapping two GPIO pins whose
data model is the boolean logical level of a pin.  The only state kept here is the
level currently driven on the LED output pin (`true` is high). -/
structure Task where
  led : Bool
deriving DecidableEq, Repr

/-- Modelled from the spec: `Task::set_gpio_high` (in the missing `led.h`).  The spec's
`set_output(level)` "writes the requested logical level to the designated output
pin"; this is the write of the high level. -/
def Task.set_gpio_high (_t : Task) : Task := { led := true }

/-- Modelled from the spec: `Task::set_gpio_low` (in the missing `led.h`).  The spec's
`set_output(level)` "writes the requested logical level to the designated output
pin"; this is the write of the low level. -/
def Task.set_gpio_low (_t : Task) : Task := { led := false }

/-! ## Program state and observable effects -/

/-- An externally visible action of `main`, in the vocabulary of the source. -/
inductive Effect where
  /-- Call of `task.get_switch_value()` that returned `b`. -/
  | get_switch_value (b : Bool)
  /-- Call of `task.set_gpio_high()`. -/
  | set_gpio_high
  /-- Call of `task.set_gpio_low()`. -/
  | set_gpio_low
  /-- Write `std::cout << s`. -/
  | cout (s : String)
  /-- Sleep request `std::this_thread::sleep_for(std::chrono::milliseconds(ms))`. -/
  | sleep_for (ms : Nat)
deriving DecidableEq, Repr

/-- Control points of `main`. -/
inductive Pc where
  /-- After `Task task;` (line 17), before the banner. -/
  | entry
  /-- At the head of `while (true)` (line 23). -/
  | loop
  /-- Behind the loop (line 35), before the exit message. -/
  | afterLoop
  /-- After `return code;` (line 36). -/
  | returned (code : Int)
deriving DecidableEq, Repr

/-- Program state of `main`: control point, the `task` object and the effects
performed so far, oldest first. -/
structure State where
  pc : Pc
  task : Task
  effects : List Effect
deriving DecidableEq, Repr

/-- Statement `std::cout << text;`. -/
def State.cout (s : State) (text : String) : State :=
  { s with effects := s.effects ++ [Effect.cout text] }

/-- Expression `task.get_switch_value()`, where `b` is the value the call returns. -/
def State.get_switch_value (s : State) (b : Bool) : Bool × State :=
  (b, { s with effects := s.effects ++ [Effect.get_switch_value b] })

/-- Statement `task.set_gpio_high();`. -/
def State.set_gpio_high (s : State) : State :=
  { s with task := s.task.set_gpio_high, effects := s.effects ++ [Effect.set_gpio_high] }

/-- Statement `task.set_gpio_low();`. -/
def State.set_gpio_low (s : State) : State :=
  { s with task := s.task.set_gpio_low, effects := s.effects ++ [Effect.set_gpio_low] }

/-- Statement `std::this_thread::sleep_for(std::chrono::milliseconds(ms));`. -/
def State.sleep_for (s : State) (ms : Nat) : State :=
  { s with effects := s.effects ++ [Effect.sleep_for ms] }

/-! ## `main` -/

/-- State after `Task task;` (line 17): nothing printed yet.  The constructor of `Task`
is in the missing `led.h`; the level it leaves on the LED is the parameter `led0`. -/
def init (led0 : Bool) : State :=
  { pc := Pc.entry, task := { led := led0 }, effects := [] }

/-- Lines 19-21 of `main`: the three banner writes, then control reaches the loop. -/
def startup (s : State) : State :=
  let s := s.cout "<================ Control LED App ================>\n"
  let s := s.cout "Usage: \n"
  let s := s.cout "Press the Hard switch to light up led on gpio pin 27"
  { s with pc := Pc.loop }

/-- Lines 24-32 of `main`: one iteration of the loop body, where `b` is the value
returned by `task.get_switch_value()` in this iteration. -/
def loopBody (s : State) (b : Bool) : State :=
  let (v, s) := s.get_switch_value b
  let s :=
    if v then
      (s.set_gpio_high).cout "Switch ON -> LED ON\n"
    else
      (s.set_gpio_low).cout "Switch OFF -> LED OFF\n"
  s.sleep_for 500

/-- The loop condition of line 23, the literal `true`. -/
def loopCondition : Bool := true

/-- Lines 35-36 of `main`: the exit message and `return 0`. -/
def finish (s : State) : State :=
  { s.cout "[INFO] Exiting LED Control App...\n" with pc := Pc.returned 0 }

/-- One step of `main`.  `b` is the level `task.get_switch_value()` returns if it is
called during this step (it is called only in a loop iteration).  A returned program
has no successor. -/
def step (s : State) (b : Bool) : Option State :=
  match s.pc with
  | Pc.entry => some (startup s)
  | Pc.loop =>
    if loopCondition then some (loopBody s b) else some { s with pc := Pc.afterLoop }
  | Pc.afterLoop => some (finish s)
  | Pc.returned _ => none

/-- Runs `step` once per element of the input list; `none` when the program has no
successor state before the inputs are used up. -/
def exec (s : State) : List Bool → Option State
  | [] => some s
  | b :: bs => (step s b).bind fun s1 => exec s1 bs

/-- The loop body run once per sample, oldest sample first. -/
def polls (s : State) (bs : List Bool) : State :=
  bs.foldl loopBody s

/-- State of `main` started with the LED at `led0`, after the banner and after one
loop iteration for each of the sampled levels `bs`. -/
def mainAfter (led0 : Bool) (bs : List Bool) : State :=
  polls (startup (init led0)) bs

/-! ## Observations on the effect list -/

/-- The strings written to `std::cout`, in order. -/
def couts : List Effect → List String
  | [] => []
  | Effect.cout s :: es => s :: couts es
  | _ :: es => couts es

/-- The levels written to the LED (`true` for `set_gpio_high`), in order. -/
def gpioWrites : List Effect → List Bool
  | [] => []
  | Effect.set_gpio_high :: es => true :: gpioWrites es
  | Effect.set_gpio_low :: es => false :: gpioWrites es
  | _ :: es => gpioWrites es

/-- The levels returned by `get_switch_value`, in order. -/
def samples : List Effect → List Bool
  | [] => []
  | Effect.get_switch_value b :: es => b :: samples es
  | _ :: es => samples es

/-- The requested sleep durations in milliseconds, in order. -/
def sleeps : List Effect → List Nat
  | [] => []
  | Effect.sleep_for ms :: es => ms :: sleeps es
  | _ :: es => sleeps es

/-- Concatenation of a list of strings, in order. -/
def concat : List String → String
  | [] => ""
  | s :: ss => s ++ concat ss

/-- The text on the console: everything written to `std::cout`, concatenated. -/
def console (s : State) : String :=
  concat (couts s.effects)

/-- The part of the effect list of `s1` behind the first `s.effects.length` entries:
the effects performed on the way from `s` to `s1`. -/
def effectsSince (s s1 : State) : List Effect :=
  s1.effects.drop s.effects.length

/-! ## The behaviour the specification describes -/

/-- The status line of a poll as the specification gives it. -/
def statusLine (b : Bool) : String :=
  if b then "Switch ON -> LED ON\n" else "Switch OFF -> LED OFF\n"

/-- The LED write of a poll as the specification gives it. -/
def ledWrite (b : Bool) : Effect :=
  if b then Effect.set_gpio_high else Effect.set_gpio_low

/-- The effects of one poll as the specification gives them: sample, write, status
line, sleep of 500 ms. -/
def pollEffects (b : Bool) : List Effect :=
  [Effect.get_switch_value b, ledWrite b, Effect.cout (statusLine b), Effect.sleep_for 500]

/-- The three banner writes. -/
def bannerEffects : List Effect :=
  [Effect.cout "<================ Control LED App ================>\n",
   Effect.cout "Usage: \n",
   Effect.cout "Press the Hard switch to light up led on gpio pin 27"]

/-- The effects of a run of polls as the specification gives them. -/
def pollsEffects : List Bool → List Effect
  | [] => []
  | b :: bs => pollEffects b ++ pollsEffects bs

/-! ## Lemmas on the observations -/

theorem couts_append (xs ys : List Effect) : couts (xs ++ ys) = couts xs ++ couts ys := by
  induction xs with
  | nil => rfl
  | cons e es ih => cases e <;> simp [couts, ih]

theorem gpioWrites_append (xs ys : List Effect) :
    gpioWrites (xs ++ ys) = gpioWrites xs ++ gpioWrites ys := by
  induction xs with
  | nil => rfl
  | cons e es ih => cases e <;> simp [gpioWrites, ih]

theorem samples_append (xs ys : List Effect) :
    samples (xs ++ ys) = samples xs ++ samples ys := by
  induction xs with
  | nil => rfl
  | cons e es ih => cases e <;> simp [samples, ih]

theorem sleeps_append (xs ys : List Effect) :
    sleeps (xs ++ ys) = sleeps xs ++ sleeps ys := by
  induction xs with
  | nil => rfl
  | cons e es ih => cases e <;> simp [sleeps, ih]

theorem concat_append (xs ys : List String) : concat (xs ++ ys) = concat xs ++ concat ys := by
  induction xs with
  | nil => simp [concat]
  | cons s ss ih => simp [concat, ih, String.append_assoc]

theorem couts_pollEffects (b : Bool) : couts (pollEffects b) = [statusLine b] := by
  cases b <;> rfl

theorem gpioWrites_pollEffects (b : Bool) : gpioWrites (pollEffects b) = [b] := by
  cases b <;> rfl

theorem samples_pollEffects (b : Bool) : samples (pollEffects b) = [b] := by
  cases b <;> rfl

theorem sleeps_pollEffects (b : Bool) : sleeps (pollEffects b) = [500] := by
  cases b <;> rfl

theorem couts_pollsEffects (bs : List Bool) : couts (pollsEffects bs) = bs.map statusLine := by
  induction bs with
  | nil => rfl
  | cons b bs ih => simp [pollsEffects, couts_append, couts_pollEffects, ih]

theorem sleeps_pollsEffects (bs : List Bool) :
    sleeps (pollsEffects bs) = List.replicate bs.length 500 := by
  induction bs with
  | nil => rfl
  | cons b bs ih =>
    simp [pollsEffects, sleeps_append, sleeps_pollEffects, ih, List.replicate_succ]

theorem pollsEffects_append (xs ys : List Bool) :
    pollsEffects (xs ++ ys) = pollsEffects xs ++ pollsEffects ys := by
  induction xs with
  | nil => rfl
  | cons b bs ih => simp [pollsEffects, ih]

theorem pollsEffects_replicate_couts (m : Nat) (b : Bool) :
    couts (pollsEffects (List.replicate m b)) = List.replicate m (statusLine b) := by
  rw [couts_pollsEffects, List.map_replicate]

/-! ## Lemmas on the loop body and on runs -/

theorem loopBody_effects (s : State) (b : Bool) :
    (loopBody s b).effects = s.effects ++ pollEffects b := by
  cases b <;>
    simp [loopBody, State.get_switch_value, State.set_gpio_high, State.set_gpio_low,
      State.cout, State.sleep_for, pollEffects, ledWrite, statusLine]

theorem loopBody_task (s : State) (b : Bool) : (loopBody s b).task = { led := b } := by
  cases b <;>
    simp [loopBody, State.get_switch_value, State.set_gpio_high, State.set_gpio_low,
      State.cout, State.sleep_for, Task.set_gpio_high, Task.set_gpio_low]

theorem loopBody_pc (s : State) (b : Bool) : (loopBody s b).pc = s.pc := by
  cases b <;>
    simp [loopBody, State.get_switch_value, State.set_gpio_high, State.set_gpio_low,
      State.cout, State.sleep_for]

theorem effectsSince_append (s s1 : State) (es : List Effect)
    (h : s1.effects = s.effects ++ es) : effectsSince s s1 = es := by
  simp [effectsSince, h]

theorem effectsSince_loopBody (s : State) (b : Bool) :
    effectsSince s (loopBody s b) = pollEffects b :=
  effectsSince_append s _ _ (loopBody_effects s b)

theorem polls_nil (s : State) : polls s [] = s := rfl

theorem polls_cons (s : State) (b : Bool) (bs : List Bool) :
    polls s (b :: bs) = polls (loopBody s b) bs := rfl

theorem polls_append (s : State) (xs ys : List Bool) :
    polls s (xs ++ ys) = polls (polls s xs) ys := by
  simp [polls, List.foldl_append]

theorem polls_snoc (s : State) (xs : List Bool) (b : Bool) :
    polls s (xs ++ [b]) = loopBody (polls s xs) b := by
  rw [polls_append]; rfl

theorem polls_effects (s : State) (bs : List Bool) :
    (polls s bs).effects = s.effects ++ pollsEffects bs := by
  induction bs generalizing s with
  | nil => simp [polls, pollsEffects]
  | cons b bs ih => rw [polls_cons, ih, loopBody_effects]; simp [pollsEffects]

theorem polls_pc (s : State) (bs : List Bool) : (polls s bs).pc = s.pc := by
  induction bs generalizing s with
  | nil => rfl
  | cons b bs ih => rw [polls_cons, ih, loopBody_pc]

theorem effectsSince_polls (s : State) (bs : List Bool) :
    effectsSince s (polls s bs) = pollsEffects bs :=
  effectsSince_append s _ _ (polls_effects s bs)

theorem startup_effects (s : State) : (startup s).effects = s.effects ++ bannerEffects := by
  simp [startup, State.cout, bannerEffects]

theorem startup_pc (s : State) : (startup s).pc = Pc.loop := rfl

theorem mainAfter_effects (led0 : Bool) (bs : List Bool) :
    (mainAfter led0 bs).effects = bannerEffects ++ pollsEffects bs := by
  simp [mainAfter, polls_effects, startup_effects, init]

theorem mainAfter_pc (led0 : Bool) (bs : List Bool) : (mainAfter led0 bs).pc = Pc.loop := by
  simp [mainAfter, polls_pc, startup_pc]

theorem mainAfter_snoc (led0 : Bool) (xs : List Bool) (b : Bool) :
    mainAfter led0 (xs ++ [b]) = loopBody (mainAfter led0 xs) b :=
  polls_snoc _ xs b

theorem step_loop (s : State) (b : Bool) (h : s.pc = Pc.loop) :
    step s b = some (loopBody s b) := by
  simp [step, h, loopCondition]

theorem exec_loop (s : State) (bs : List Bool) (h : s.pc = Pc.loop) :
    exec s bs = some (polls s bs) := by
  induction bs generalizing s with
  | nil => rfl
  | cons b bs ih =>
    have h1 : (loopBody s b).pc = Pc.loop := by rw [loopBody_pc, h]
    simp [exec, step_loop s b h, ih _ h1, polls_cons]

theorem exec_init_cons (led0 b : Bool) (bs : List Bool) :
    exec (init led0) (b :: bs) = some (mainAfter led0 bs) := by
  have h : step (init led0) b = some (startup (init led0)) := rfl
  show (step (init led0) b).bind (fun s1 => exec s1 bs) = some (mainAfter led0 bs)
  rw [h]
  exact exec_loop _ bs (startup_pc _)

theorem take_succ_eq_snoc (bs : List Bool) (k : Nat) (hk : k < bs.length) :
    bs.take (k + 1) = bs.take k ++ [bs.get ⟨k, hk⟩] := by
  induction bs generalizing k with
  | nil => cases hk
  | cons b bs ih =>
    cases k with
    | zero => rfl
    | succ k =>
      have hk1 : k < bs.length := Nat.lt_of_succ_lt_succ hk
      show b :: bs.take (k + 1) = b :: (bs.take k ++ [bs.get ⟨k, hk1⟩])
      rw [ih k hk1]

theorem mainAfter_take_succ (led0 : Bool) (bs : List Bool) (k : Nat) (hk : k < bs.length) :
    mainAfter led0 (bs.take (k + 1)) = loopBody (mainAfter led0 (bs.take k)) (bs.get ⟨k, hk⟩) := by
  rw [take_succ_eq_snoc bs k hk, mainAfter_snoc]

theorem led_after_take (led0 : Bool) (bs : List Bool) (k : Nat) (hk : k < bs.length) :
    (mainAfter led0 (bs.take (k + 1))).task.led = bs.get ⟨k, hk⟩ := by
  rw [mainAfter_take_succ led0 bs k hk, loopBody_task]

theorem polls_replicate_succ_task (s : State) (b : Bool) (j : Nat) :
    (polls s (List.replicate (j + 1) b)).task = { led := b } := by
  rw [List.replicate_succ', polls_snoc, loopBody_task]

theorem polls_replicate_succ (s : State) (b : Bool) (j : Nat) :
    polls s (List.replicate (j + 1) b) = loopBody (polls s (List.replicate j b)) b := by
  rw [List.replicate_succ', polls_snoc]

theorem mem_couts_of_cout_mem (es : List Effect) (t : String) (h : Effect.cout t ∈ es) :
    t ∈ couts es := by
  induction es with
  | nil => cases h
  | cons e es ih =>
    rcases List.mem_cons.mp h with h1 | h1
    · subst h1; simp [couts]
    · have h2 := ih h1
      cases e <;> simp [couts, h2]

/-! ## The claims -/

/-- C1: for every initial LED level and every sequence `bs` of sampled levels, after
the loop iteration that samples `bs[k]` (iteration `k + 1`) the LED level equals
`bs[k]`; that iteration sampled `bs[k]`, and it called `set_gpio_high` exactly when the
sample was true and `set_gpio_low` exactly when it was false.  In particular a sample
false followed by a sample true leaves the LED high after the second of the two
polls. -/
theorem C1_led_mirrors_sample (led0 : Bool) (bs : List Bool) (k : Nat) (hk : k < bs.length) :
    (mainAfter led0 (bs.take (k + 1))).task.led = bs.get ⟨k, hk⟩
    ∧ samples (effectsSince (mainAfter led0 (bs.take k)) (mainAfter led0 (bs.take (k + 1))))
        = [bs.get ⟨k, hk⟩]
    ∧ (Effect.set_gpio_high ∈
          effectsSince (mainAfter led0 (bs.take k)) (mainAfter led0 (bs.take (k + 1)))
        ↔ bs.get ⟨k, hk⟩ = true)
    ∧ (Effect.set_gpio_low ∈
          effectsSince (mainAfter led0 (bs.take k)) (mainAfter led0 (bs.take (k + 1)))
        ↔ bs.get ⟨k, hk⟩ = false)
    ∧ (∀ hk1 : k + 1 < bs.length, bs.get ⟨k, hk⟩ = false → bs.get ⟨k + 1, hk1⟩ = true →
        (mainAfter led0 (bs.take (k + 2))).task.led = true) := by
  have hs := mainAfter_take_succ led0 bs k hk
  refine ⟨led_after_take led0 bs k hk, ?_, ?_, ?_, ?_⟩
  · rw [hs, effectsSince_loopBody, samples_pollEffects]
  · rw [hs, effectsSince_loopBody]
    cases bs.get ⟨k, hk⟩ <;> simp [pollEffects, ledWrite]
  · rw [hs, effectsSince_loopBody]
    cases bs.get ⟨k, hk⟩ <;> simp [pollEffects, ledWrite]
  · intro hk1 _ h1
    rw [led_after_take led0 bs (k + 1) hk1, h1]

/-- Witness of C1 on the samples false, true: the LED is high after the second poll. -/
theorem C1_led_mirrors_sample_witness :
    1 < [false, true].length ∧ (mainAfter false [false, true]).task.led = true :=
  ⟨by decide, (C1_led_mirrors_sample false [false, true] 1 (by decide)).1⟩

/-- C2: every loop iteration writes exactly one string to the console, the line
"Switch ON -> LED ON" when the sample is true and "Switch OFF -> LED OFF" when it is
false, each ended by a newline; after the polls `bs` the console holds the banner
followed by the lines chosen by `bs`, in order.  A first sample false sets the LED low
and writes the OFF line. -/
theorem C2_one_status_line_per_poll (led0 : Bool) (bs : List Bool) :
    (∀ (s : State) (b : Bool),
        couts (effectsSince s (loopBody s b))
          = [if b then "Switch ON -> LED ON\n" else "Switch OFF -> LED OFF\n"]
        ∧ console (loopBody s b)
          = console s ++ (if b then "Switch ON -> LED ON\n" else "Switch OFF -> LED OFF\n"))
    ∧ couts (effectsSince (startup (init led0)) (mainAfter led0 bs)) = bs.map statusLine
    ∧ console (mainAfter led0 bs)
        = console (startup (init led0)) ++ concat (bs.map statusLine)
    ∧ (mainAfter led0 [false]).task.led = false
    ∧ couts (effectsSince (mainAfter led0 []) (mainAfter led0 [false]))
        = ["Switch OFF -> LED OFF\n"] := by
  refine ⟨fun s b => ⟨?_, ?_⟩, ?_, ?_, ?_, ?_⟩
  · rw [effectsSince_loopBody, couts_pollEffects]; rfl
  · simp only [console]
    rw [loopBody_effects, couts_append, concat_append, couts_pollEffects]
    simp [concat, statusLine]
  · simp only [mainAfter]
    rw [effectsSince_polls, couts_pollsEffects]
  · simp only [console, mainAfter]
    rw [polls_effects, couts_append, concat_append, couts_pollsEffects]
  · rfl
  · rfl

/-- C3: for every state and every level `b`, running the loop body `m >= 1` times with
the same sample `b` leaves the LED at the level it had after the first of these polls,
after each of them, and each of them writes the same status line as the first one. -/
theorem C3_repeated_poll_idempotent (s : State) (b : Bool) (m : Nat) (hm : 1 ≤ m) :
    (polls s (List.replicate m b)).task.led = (loopBody s b).task.led
    ∧ (∀ j, j < m →
        (polls s (List.replicate (j + 1) b)).task.led = (loopBody s b).task.led
        ∧ couts (effectsSince (polls s (List.replicate j b))
              (polls s (List.replicate (j + 1) b)))
            = couts (effectsSince s (loopBody s b)))
    ∧ couts (effectsSince s (polls s (List.replicate m b)))
        = List.replicate m (if b then "Switch ON -> LED ON\n" else "Switch OFF -> LED OFF\n") := by
  refine ⟨?_, fun j _ => ⟨?_, ?_⟩, ?_⟩
  · obtain ⟨j, rfl⟩ : ∃ j, m = j + 1 := ⟨m - 1, by omega⟩
    rw [polls_replicate_succ_task, loopBody_task]
  · rw [polls_replicate_succ_task, loopBody_task]
  · rw [polls_replicate_succ, effectsSince_loopBody, effectsSince_loopBody]
  · rw [effectsSince_polls, pollsEffects_replicate_couts]; rfl

/-- Witness of C3: the sample true on three consecutive polls after the banner gives
the LED high after each of the three polls and three identical ON lines. -/
theorem C3_repeated_poll_idempotent_witness :
    1 ≤ 3
    ∧ (polls (startup (init false)) [true]).task.led = true
    ∧ (polls (startup (init false)) [true, true]).task.led = true
    ∧ (polls (startup (init false)) [true, true, true]).task.led = true
    ∧ couts (effectsSince (startup (init false))
          (polls (startup (init false)) [true, true, true]))
        = ["Switch ON -> LED ON\n", "Switch ON -> LED ON\n", "Switch ON -> LED ON\n"] :=
  have h := C3_repeated_poll_idempotent (startup (init false)) true 3 (by decide)
  ⟨by decide, (h.2.1 0 (by decide)).1, (h.2.1 1 (by decide)).1, h.1, h.2.2⟩

/-- C4: one loop iteration is determined by the sampled level alone: from any two
states (any previous LED level, any earlier effects) the same sample gives the same
effects and the same `task` state; the `task` states behind a poll are exactly LED
high and LED low; and the LED write and the status line are issued again by a second
poll with the same sample. -/
theorem C4_poll_stateless (s1 s2 : State) (b : Bool) :
    effectsSince s1 (loopBody s1 b) = effectsSince s2 (loopBody s2 b)
    ∧ (loopBody s1 b).task = (loopBody s2 b).task
    ∧ (loopBody s1 b).task.led = b
    ∧ (∀ t : Task, (∃ s c, (loopBody s c).task = t) ↔ (t = { led := true } ∨ t = { led := false }))
    ∧ gpioWrites (effectsSince s1 (loopBody s1 b)) = [b]
    ∧ couts (effectsSince s1 (loopBody s1 b)) = [(if b then "Switch ON -> LED ON\n" else "Switch OFF -> LED OFF\n")]
    ∧ gpioWrites (effectsSince (loopBody s1 b) (loopBody (loopBody s1 b) b)) = [b]
    ∧ couts (effectsSince (loopBody s1 b) (loopBody (loopBody s1 b) b)) = [(if b then "Switch ON -> LED ON\n" else "Switch OFF -> LED OFF\n")] := by
  refine ⟨?_, ?_, ?_, ?_, ?_, ?_, ?_, ?_⟩
  · rw [effectsSince_loopBody, effectsSince_loopBody]
  · rw [loopBody_task, loopBody_task]
  · rw [loopBody_task]
  · intro t
    constructor
    · rintro ⟨s, c, rfl⟩
      rw [loopBody_task]
      cases c
      · exact Or.inr rfl
      · exact Or.inl rfl
    · rintro (rfl | rfl)
      · exact ⟨s1, true, loopBody_task s1 true⟩
      · exact ⟨s1, false, loopBody_task s1 false⟩
  · rw [effectsSince_loopBody, gpioWrites_pollEffects]
  · rw [effectsSince_loopBody, couts_pollEffects]; rfl
  · rw [effectsSince_loopBody, gpioWrites_pollEffects]
  · rw [effectsSince_loopBody, couts_pollEffects]; rfl

/-- C5: the loop of `main` has no terminal state.  For every initial LED level and
every input sequence the run is defined, its state is at the entry or at the loop
head, every input gives it a successor at the loop head, the program has not
returned, and the exit message "[INFO] Exiting LED Control App..." has not been
written. -/
theorem C5_loop_never_exits (led0 : Bool) (bs : List Bool) :
    ∃ s, exec (init led0) bs = some s
      ∧ (s.pc = Pc.entry ∨ s.pc = Pc.loop)
      ∧ (∀ b, ∃ s1, step s b = some s1 ∧ s1.pc = Pc.loop)
      ∧ s.pc ≠ Pc.afterLoop
      ∧ (∀ code, s.pc ≠ Pc.returned code)
      ∧ Effect.cout "[INFO] Exiting LED Control App...\n" ∉ s.effects
      ∧ "[INFO] Exiting LED Control App...\n" ∉ couts s.effects := by
  cases bs with
  | nil =>
    refine ⟨init led0, rfl, Or.inl rfl, fun b => ⟨startup (init led0), rfl, rfl⟩, ?_, ?_, ?_, ?_⟩
    · simp [init]
    · simp [init]
    · simp [init]
    · simp [init, couts]
  | cons b bs =>
    have hpc := mainAfter_pc led0 bs
    have hc : couts (mainAfter led0 bs).effects = couts bannerEffects ++ bs.map statusLine := by
      rw [mainAfter_effects, couts_append, couts_pollsEffects]
    have hout : "[INFO] Exiting LED Control App...\n" ∉ couts (mainAfter led0 bs).effects := by
      rw [hc]
      intro hmem
      rcases List.mem_append.mp hmem with h | h
      · revert h; decide
      · obtain ⟨c, _, hcl⟩ := List.mem_map.mp h
        cases c
        · revert hcl; decide
        · revert hcl; decide
    refine ⟨mainAfter led0 bs, exec_init_cons led0 b bs, Or.inr hpc, ?_, ?_, ?_, ?_, hout⟩
    · intro c
      exact ⟨loopBody (mainAfter led0 bs) c, step_loop _ c hpc, by rw [loopBody_pc, hpc]⟩
    · rw [hpc]; simp
    · intro code; rw [hpc]; simp
    · exact fun h => hout (mem_couts_of_cout_mem _ _ h)

/-- C6: each loop iteration performs exactly these effects, in this order: one call of
`get_switch_value`, one LED write (`set_gpio_high` for a true sample, `set_gpio_low`
for a false one), one status line, one sleep request of 500 ms; the requested sleep
is 500 ms in every iteration of every run. -/
theorem C6_iteration_effects (s : State) (b : Bool) :
    (loopBody s b).effects
        = s.effects ++ [Effect.get_switch_value b,
            (if b then Effect.set_gpio_high else Effect.set_gpio_low),
            Effect.cout (if b then "Switch ON -> LED ON\n" else "Switch OFF -> LED OFF\n"), Effect.sleep_for 500]
    ∧ effectsSince s (loopBody s b)
        = [Effect.get_switch_value b,
            (if b then Effect.set_gpio_high else Effect.set_gpio_low),
            Effect.cout (if b then "Switch ON -> LED ON\n" else "Switch OFF -> LED OFF\n"), Effect.sleep_for 500]
    ∧ samples (effectsSince s (loopBody s b)) = [b]
    ∧ gpioWrites (effectsSince s (loopBody s b)) = [b]
    ∧ sleeps (effectsSince s (loopBody s b)) = [500]
    ∧ (∀ (led0 : Bool) (bs : List Bool),
        sleeps (mainAfter led0 bs).effects = List.replicate bs.length 500) := by
  refine ⟨?_, ?_, ?_, ?_, ?_, ?_⟩
  · rw [loopBody_effects]; rfl
  · rw [effectsSince_loopBody]; rfl
  · rw [effectsSince_loopBody, samples_pollEffects]
  · rw [effectsSince_loopBody, gpioWrites_pollEffects]
  · rw [effectsSince_loopBody, sleeps_pollEffects]
  · intro led0 bs
    rw [mainAfter_effects, sleeps_append, sleeps_pollsEffects]
    rfl

/-- C8: before the first sample `main` writes exactly the three banner strings, in
order; the third one does not end in a newline, so the console text of every run with
at least one poll starts with the banner directly followed, on the same line, by the
status line of the first sample. -/
theorem C8_banner_then_first_line (led0 b : Bool) (bs : List Bool) :
    (startup (init led0)).effects = [Effect.cout "<================ Control LED App ================>\n", Effect.cout "Usage: \n", Effect.cout "Press the Hard switch to light up led on gpio pin 27"]
    ∧ (mainAfter led0 (b :: bs)).effects.take 4
        = [Effect.cout "<================ Control LED App ================>\n", Effect.cout "Usage: \n", Effect.cout "Press the Hard switch to light up led on gpio pin 27", Effect.get_switch_value b]
    ∧ samples ((mainAfter led0 (b :: bs)).effects.take 3) = []
    ∧ String.back "Press the Hard switch to light up led on gpio pin 27" = '7'
    ∧ console (mainAfter led0 (b :: bs))
        = (if b then
            "<================ Control LED App ================>\nUsage: \nPress the Hard switch to light up led on gpio pin 27Switch ON -> LED ON\n"
          else
            "<================ Control LED App ================>\nUsage: \nPress the Hard switch to light up led on gpio pin 27Switch OFF -> LED OFF\n")
          ++ concat (bs.map statusLine) := by
  have he : (mainAfter led0 (b :: bs)).effects
      = (bannerEffects ++ pollEffects b) ++ pollsEffects bs := by
    rw [mainAfter_effects]; simp [pollsEffects]
  refine ⟨rfl, ?_, ?_, by decide, ?_⟩
  · rw [he]; cases b <;> rfl
  · rw [he]; cases b <;> rfl
  · simp only [console]
    rw [he, couts_append, concat_append, couts_pollsEffects]
    cases b <;> rfl

end LedClass
